import Mathlib

/-!
# Verification of the deliverydk pricing / balance / settlement engine

Shallow embedding of the partner-balance core of the `deliverydk` repository:

* the PL/pgSQL trigger `credit_partner_sale_on_delivery`
  (`supabase/migrations/fix_partner_profit_calculation.sql`), which settles a
  delivered order into the partner's balance;
* the withdrawal request path (`useRequestWithdrawal` + the `canWithdraw`
  guard of the partner `WithdrawalModal` in `src/pages/partner/products.tsx`);
* the admin withdrawal resolution path (`useUpdateWithdrawal` and the admin
  `WithdrawalModal`);
* the partner price-setting path (`SetPriceModal.handleSave` +
  `useUpsertPartnerProduct` in `src/pages/partner/products.tsx`).

Monetary values (`DECIMAL(10,2)` columns, JS numbers holding currency) are
modelled as `ℚ`; row ids as `ℕ`.  SQL `NULL` is modelled with `Option`,
including the three-valued arithmetic of the profit loop in the trigger.
-/

namespace DeliveryDK

/-- Order status pipeline (`OrderStatus` in `src/types/database.ts`). -/
inductive OrderStatus where
  | pending | confirmed | preparing | ready | delivering | delivered | cancelled
deriving DecidableEq, Repr

/-- Withdrawal status (`WithdrawalStatus` union type in the source). -/
inductive WithdrawalStatus where
  | pending | approved | paid | rejected | cancelled
deriving DecidableEq, Repr

/-- Partner-transaction type (`TransactionType` union type in the source). -/
inductive TxnType where
  | sale | withdrawal | adjustment | refund
deriving DecidableEq, Repr

/-- A row of the `products` table.  Only the columns read by the core are
kept: `id` and the admin cost price `price`.  The trigger guards the price
with `COALESCE(price, 0)`, so the column is modelled as nullable. -/
structure ProductRow where
  id : Nat
  price : Option Rat
deriving DecidableEq, Repr

/-- A row of the `order_items` table (columns read by the trigger:
`product_id`, `unit_price`, `quantity`, keyed by `order_id`). -/
structure OrderItemRow where
  order_id : Nat
  product_id : Nat
  unit_price : Rat
  quantity : Nat
deriving DecidableEq, Repr

/-- A row of the `orders` table (columns read by the core). -/
structure OrderRow where
  id : Nat
  order_number : Nat
  partner_id : Option Nat
  status : OrderStatus
deriving DecidableEq, Repr

/-- A row of the `partner_balances` table. -/
structure BalanceRow where
  partner_id : Nat
  available_balance : Rat
  pending_balance : Rat
  total_earned : Rat
  total_withdrawn : Rat
deriving DecidableEq, Repr

/-- A row of the `partner_transactions` table (columns written by the core). -/
structure TxnRow where
  partner_id : Nat
  type : TxnType
  amount : Rat
  balance_after : Rat
  reference_id : Nat
deriving DecidableEq, Repr

/-- A row of the `partner_withdrawals` table.  `processed_at` is kept as an
abstract nullable timestamp (`Option Nat`). -/
structure WithdrawalRow where
  id : Nat
  partner_id : Nat
  amount : Rat
  status : WithdrawalStatus
  pix_key : String
  processed_at : Option Nat
deriving DecidableEq, Repr

/-- A row of the `partner_products` table (columns written by
`useUpsertPartnerProduct`). -/
structure PartnerProductRow where
  partner_id : Nat
  product_id : Nat
  selling_price : Rat
  is_active : Bool
deriving DecidableEq, Repr

/-- The `payment_settings` singleton (columns read by the core). -/
structure PaymentSettings where
  min_withdrawal_amount : Rat
deriving DecidableEq, Repr

/-- The database state visible to the pricing / balance / settlement core. -/
structure DB where
  products : List ProductRow
  orders : List OrderRow
  order_items : List OrderItemRow
  partner_balances : List BalanceRow
  partner_transactions : List TxnRow
  partner_withdrawals : List WithdrawalRow
  partner_products : List PartnerProductRow
  settings : PaymentSettings
  /-- id generator for freshly inserted withdrawal rows. -/
  next_id : Nat
deriving DecidableEq, Repr

/-! ## The settlement trigger `credit_partner_sale_on_delivery`

Embedding of the PL/pgSQL function in
`supabase/migrations/fix_partner_profit_calculation.sql`.  SQL's three-valued
arithmetic matters here: `SELECT COALESCE(price, 0) INTO v_product_cost FROM
products WHERE id = ...` leaves `v_product_cost` NULL when no row matches
(PL/pgSQL `SELECT ... INTO` without `STRICT` sets the target to NULL on zero
rows), and a NULL summand makes the running `v_partner_profit` NULL for good,
so the later `IF v_partner_profit > 0` test is not taken. -/

/-- `SELECT COALESCE(price, 0) INTO v_product_cost FROM products WHERE id = pid`:
`some (COALESCE(price,0))` when a row matches, `none` (SQL NULL) otherwise. -/
def lookupCost (products : List ProductRow) (pid : Nat) : Option Rat :=
  match products.find? (fun r => r.id = pid) with
  | some r => some (r.price.getD 0)
  | none => none

/-- The line items of an order, in table order
(`SELECT ... FROM order_items oi WHERE oi.order_id = NEW.id`). -/
def itemsOf (db : DB) (orderId : Nat) : List OrderItemRow :=
  db.order_items.filter (fun it => it.order_id = orderId)

/-- One iteration of the trigger's profit loop:
`v_partner_profit := v_partner_profit + ((unit_price - v_product_cost) * quantity)`
with NULL-propagating SQL arithmetic.  `none` means the value is NULL. -/
def profitStep (products : List ProductRow) (acc : Option Rat)
    (it : OrderItemRow) : Option Rat :=
  match acc, lookupCost products it.product_id with
  | some a, some c => some (a + (it.unit_price - c) * (it.quantity : Rat))
  | _, _ => none

/-- The profit accumulation loop of the trigger, starting from
`v_partner_profit := 0`. -/
def orderProfit (db : DB) (orderId : Nat) : Option Rat :=
  (itemsOf db orderId).foldl (profitStep db.products) (some 0)

/-- The balance row of a partner, if any
(`SELECT 1 FROM partner_balances WHERE partner_id = ...`). -/
def findBalance (db : DB) (pid : Nat) : Option BalanceRow :=
  db.partner_balances.find? (fun b => b.partner_id = pid)

/-- `UPDATE partner_balances SET pending_balance = pending_balance + p,
total_earned = total_earned + p WHERE partner_id = pid`. -/
def creditPending (rows : List BalanceRow) (pid : Nat) (p : Rat) : List BalanceRow :=
  rows.map (fun b =>
    if b.partner_id = pid then
      { b with pending_balance := b.pending_balance + p,
               total_earned := b.total_earned + p }
    else b)

/-- `SELECT available_balance + pending_balance FROM partner_balances WHERE
partner_id = pid` (NULL — read as 0 — when the partner has no row). -/
def balanceSnapshot (db : DB) (pid : Nat) : Rat :=
  match findBalance db pid with
  | some b => b.available_balance + b.pending_balance
  | none => 0

/-- The body of the `IF v_partner_profit > 0 THEN ... END IF` block: upsert of
the balance row followed by the `INSERT INTO partner_transactions` whose
`balance_after` re-reads `available_balance + pending_balance` for the partner
after the upsert. -/
def postSale (db : DB) (pid : Nat) (orderId : Nat) (p : Rat) : DB :=
  let balances :=
    match findBalance db pid with
    | none =>
        db.partner_balances ++
          [{ partner_id := pid, available_balance := 0, pending_balance := p,
             total_earned := p, total_withdrawn := 0 }]
    | some _ => creditPending db.partner_balances pid p
  let db1 := { db with partner_balances := balances }
  { db1 with
      partner_transactions := db1.partner_transactions ++
        [{ partner_id := pid, type := TxnType.sale, amount := p,
           balance_after := balanceSnapshot db1 pid, reference_id := orderId }] }

/-- The trigger `credit_partner_sale_on_delivery`, fired `AFTER UPDATE ON
orders` with the old and new row.  Returns the database after any settlement
side effects. -/
def credit_partner_sale_on_delivery (db : DB) (oldRow newRow : OrderRow) : DB :=
  if newRow.status = OrderStatus.delivered ∧ oldRow.status ≠ OrderStatus.delivered then
    match newRow.partner_id with
    | none => db
    | some pid =>
      match orderProfit db newRow.id with
      | some p => if 0 < p then postSale db pid newRow.id p else db
      | none => db
  else db

/-- `useUpdateOrderStatus` (`src/hooks` order hooks): `UPDATE orders SET
status = :status WHERE id = :id`, which fires the `AFTER UPDATE` trigger on
each updated row. -/
def updateOrderStatus (db : DB) (orderId : Nat) (newStatus : OrderStatus) : DB :=
  match db.orders.find? (fun o => o.id = orderId) with
  | none => db
  | some o =>
      let newRow := { o with status := newStatus }
      let db1 := { db with
        orders := db.orders.map (fun r => if r.id = orderId then newRow else r) }
      credit_partner_sale_on_delivery db1 o newRow

/-! ## Withdrawal request (`WithdrawalModal` + `useRequestWithdrawal`,
`src/pages/partner/products.tsx`) -/

/-- `const minAmount = settings?.min_withdrawal_amount || 50`: JS `||` falls
back to `50` when the setting is absent or `0` (falsy). -/
def minAmount (s : PaymentSettings) : Rat :=
  if s.min_withdrawal_amount = 0 then 50 else s.min_withdrawal_amount

/-- `const availableBalance = Number(balance?.available_balance || 0)`. -/
def availableBalanceOf (db : DB) (pid : Nat) : Rat :=
  match findBalance db pid with
  | some b => b.available_balance
  | none => 0

/-- JS `pixKey.trim().length > 0`: trimming strips surrounding whitespace,
so the trimmed string is non-empty exactly when some character of the key is
not whitespace. -/
def pixKeyNonBlank (pixKey : String) : Bool :=
  pixKey.data.any (fun c => !c.isWhitespace)

/-- The modal's guard
`canWithdraw = parsedAmount >= minAmount && parsedAmount <= availableBalance
&& pixKey.trim().length > 0`. -/
def canWithdraw (db : DB) (pid : Nat) (amount : Rat) (pixKey : String) : Bool :=
  decide (minAmount db.settings ≤ amount) &&
  decide (amount ≤ availableBalanceOf db pid) &&
  pixKeyNonBlank pixKey

/-- Modelled from the spec: the RPC `block_withdrawal_amount(p_partner_id,
p_amount)` is invoked by `useRequestWithdrawal` but its definition (a
database function) is not in the repository sources.  The spec's Withdrawal
Manager says a successful request "atomically moves `amount` out of
`available_balance`" as an immediate debit, the Withdrawal row being the only
record of the reservation. -/
def block_withdrawal_amount (db : DB) (pid : Nat) (amount : Rat) : DB :=
  let rows := db.partner_balances.map (fun b =>
    if b.partner_id = pid then
      { b with available_balance := b.available_balance - amount }
    else b)
  { db with partner_balances := rows }

/-- `INSERT INTO partner_withdrawals (partner_id, amount, pix_key, status)
VALUES (..., 'pending')` performed by `useRequestWithdrawal`. -/
def insertWithdrawal (db : DB) (pid : Nat) (amount : Rat) (pixKey : String) : DB :=
  { db with
      partner_withdrawals := db.partner_withdrawals ++
        [{ id := db.next_id, partner_id := pid, amount := amount,
           status := WithdrawalStatus.pending, pix_key := pixKey,
           processed_at := none }],
      next_id := db.next_id + 1 }

/-- Errors of the withdrawal-request path.  The constructors name the three
conjuncts of the source's `canWithdraw` guard, checked in the order the spec
lists them; the source surfaces the first two as the minimum-amount rule and
the "Valor maior que o saldo disponível" input error, and blocks submission
(`if (!canWithdraw) return`) in all three cases. -/
inductive RequestError where
  | BelowMinimum | InsufficientFunds | EmptyPixKey
deriving DecidableEq, Repr

/-- The withdrawal request path: `handleSubmit` guarded by `canWithdraw`,
then `useRequestWithdrawal` (insert of the `pending` row followed by the
`block_withdrawal_amount` RPC). -/
def requestWithdrawal (db : DB) (pid : Nat) (amount : Rat) (pixKey : String) :
    Except RequestError DB :=
  if amount < minAmount db.settings then Except.error RequestError.BelowMinimum
  else if availableBalanceOf db pid < amount then Except.error RequestError.InsufficientFunds
  else if pixKeyNonBlank pixKey = false then Except.error RequestError.EmptyPixKey
  else Except.ok (block_withdrawal_amount (insertWithdrawal db pid amount pixKey) pid amount)

/-- The state transition of a request as seen by the UI: an error leaves the
database untouched (`handleSubmit` returns without mutating). -/
def requestWithdrawalRun (db : DB) (pid : Nat) (amount : Rat) (pixKey : String) : DB :=
  match requestWithdrawal db pid amount pixKey with
  | Except.ok db1 => db1
  | Except.error _ => db

/-! ## Admin withdrawal resolution (`useUpdateWithdrawal`, admin payments
page)

The mutation PATCHes `partner_withdrawals?id=eq.{id}` with the new status,
`processed_at` and notes — with no condition on the row's current status.
When the new status is `paid` it then

* PATCHes `partner_balances` with the body
  `{"available_balance": "available_balance - X", "total_withdrawn":
  "total_withdrawn + X"}`.  PostgREST does not evaluate SQL expressions in
  PATCH bodies: these strings fail to cast to the `DECIMAL` columns, the
  request errors and no row changes; the source never checks this
  response, so the failure is silent.  The embedding therefore leaves
  `partner_balances` unchanged;
* POSTs a `partner_transactions` row with `amount = -withdrawal.amount` and
  the literal `balance_after: 0` (commented `// Será recalculado` in the
  source; nothing recalculates it). -/

def useUpdateWithdrawal (db : DB) (wid : Nat) (newStatus : WithdrawalStatus)
    (now : Nat) : DB :=
  match db.partner_withdrawals.find? (fun w => w.id = wid) with
  | none => db
  | some w =>
      let rows := db.partner_withdrawals.map (fun r =>
        if r.id = wid then
          { r with status := newStatus, processed_at := some now }
        else r)
      let db1 := { db with partner_withdrawals := rows }
      if newStatus = WithdrawalStatus.paid then
        { db1 with partner_transactions := db1.partner_transactions ++
            [{ partner_id := w.partner_id, type := TxnType.withdrawal,
               amount := -w.amount, balance_after := 0, reference_id := w.id }] }
      else db1

/-- The admin `WithdrawalModal` renders the "Confirmar Pagamento" / "Rejeitar"
actions only under `withdrawal.status === 'pending'`. -/
def modalOffersResolution (w : WithdrawalRow) : Bool :=
  w.status = WithdrawalStatus.pending

/-! ## Partner price setting (`SetPriceModal.handleSave` +
`useUpsertPartnerProduct`) -/

/-- Error of the price-setting path: `handleSave` refuses (toast + early
return, nothing persisted) when `sellingPrice <= costPrice`. -/
inductive PriceError where
  | InvalidPrice
deriving DecidableEq, Repr

/-- The upsert POST with `Prefer: resolution=merge-duplicates`: replaces the
`(partner_id, product_id)` row if present, else appends it. -/
def upsertPartnerProduct (rows : List PartnerProductRow)
    (row : PartnerProductRow) : List PartnerProductRow :=
  if rows.any (fun r => r.partner_id = row.partner_id ∧ r.product_id = row.product_id) then
    rows.map (fun r =>
      if r.partner_id = row.partner_id ∧ r.product_id = row.product_id then row else r)
  else rows ++ [row]

/-- `SetPriceModal.handleSave`: `costPrice = product?.price || 0` (JS `||`,
so a NULL or zero price reads as 0), rejection when
`sellingPrice <= costPrice`, otherwise the upsert with `is_active: true`. -/
def setSellingPrice (db : DB) (pid : Nat) (product : ProductRow)
    (sellingPrice : Rat) : Except PriceError DB :=
  let costPrice := product.price.getD 0
  if sellingPrice ≤ costPrice then Except.error PriceError.InvalidPrice
  else
    let rows := upsertPartnerProduct db.partner_products
      { partner_id := pid, product_id := product.id,
        selling_price := sellingPrice, is_active := true }
    Except.ok { db with partner_products := rows }

/-! ## Core operations and runs -/

/-- One core operation of the engine: an order-status update (settlement
fires on transitions into `delivered`), a partner withdrawal request, or an
admin withdrawal resolution. -/
inductive Op where
  | deliver (orderId : Nat) (newStatus : OrderStatus)
  | request (pid : Nat) (amount : Rat) (pixKey : String)
  | resolve (wid : Nat) (newStatus : WithdrawalStatus) (now : Nat)
deriving Repr

/-- The state transition of one core operation. -/
def step (db : DB) : Op → DB
  | Op.deliver orderId newStatus => updateOrderStatus db orderId newStatus
  | Op.request pid amount pixKey => requestWithdrawalRun db pid amount pixKey
  | Op.resolve wid newStatus now => useUpdateWithdrawal db wid newStatus now

/-- A run of core operations. -/
def run (db : DB) (ops : List Op) : DB := ops.foldl step db

/-- The state transition of a price edit as seen by the UI: `handleSave`
returns without calling the mutation when the price floor is violated, so the
database is untouched. -/
def setSellingPriceRun (db : DB) (pid : Nat) (product : ProductRow)
    (sellingPrice : Rat) : DB :=
  match setSellingPrice db pid product sellingPrice with
  | Except.ok db1 => db1
  | Except.error _ => db

/-- The spec's formula for the settled profit of an order: the sum over line
items of `(unitPriceSold - currentCostPrice) * quantity`, the current cost
price being the product's `price` column read through `COALESCE(price, 0)`.
Stated from the spec's words, to be compared with the trigger's `orderProfit`
loop. -/
def specOrderProfit (db : DB) (orderId : Nat) : Rat :=
  ((itemsOf db orderId).map
    (fun it => (it.unit_price - (lookupCost db.products it.product_id).getD 0) *
      (it.quantity : Rat))).sum

/-! ## Ledger-reconciliation invariants -/

/-- The amount reserved by a partner's withdrawal rows: the sum of the
`amount` column over the partner's rows of `partner_withdrawals`.  A request
moves this much out of `available_balance` (via `block_withdrawal_amount`)
and nothing in the sources ever moves it back or into `total_withdrawn`. -/
def reservedL (ws : List WithdrawalRow) (pid : Nat) : Rat :=
  ((ws.filter (fun w => w.partner_id = pid)).map WithdrawalRow.amount).sum

/-- The spec's claimed reconciliation equation for one balance row, with the
0.01 currency tolerance. -/
abbrev claimedEquation (b : BalanceRow) : Prop :=
  |b.available_balance + b.pending_balance - (b.total_earned - b.total_withdrawn)| ≤ 1 / 100

/-- The spec's claimed invariant: every balance row satisfies
`available_balance + pending_balance == total_earned - total_withdrawn`
within the 0.01 tolerance. -/
abbrev claimedInvariant (db : DB) : Prop :=
  ∀ b ∈ db.partner_balances, claimedEquation b

/-- The reconciliation invariant the code actually maintains: each balance
row is off from the claimed equation by exactly the partner's reserved
withdrawal total, and every withdrawal row belongs to a partner that has a
balance row. -/
abbrev Inv (db : DB) : Prop :=
  (∀ b ∈ db.partner_balances,
     b.available_balance + b.pending_balance
         + reservedL db.partner_withdrawals b.partner_id
       = b.total_earned - b.total_withdrawn) ∧
  (∀ w ∈ db.partner_withdrawals,
     ∃ b ∈ db.partner_balances, b.partner_id = w.partner_id)

/-! ## Concrete states used by witnesses and counterexamples -/

/-- The spec's Scenario A state: product cost 20, one order for partner 7
with one line sold at 28, quantity 3, not yet delivered. -/
def exDB0 : DB :=
  { products := [{ id := 1, price := some 20 }],
    orders := [{ id := 10, order_number := 1, partner_id := some 7,
                 status := OrderStatus.delivering }],
    order_items := [{ order_id := 10, product_id := 1, unit_price := 28, quantity := 3 }],
    partner_balances := [],
    partner_transactions := [],
    partner_withdrawals := [],
    partner_products := [],
    settings := { min_withdrawal_amount := 50 },
    next_id := 0 }

/-- Scenario A's order already delivered. -/
def exDelivered : DB :=
  { exDB0 with orders := [{ id := 10, order_number := 1, partner_id := some 7,
                            status := OrderStatus.delivered }] }

/-- Scenario A with the product row deleted: the trigger's cost lookup
returns SQL NULL. -/
def exMissing : DB := { exDB0 with products := [] }

/-- Two orders for partner 7: order 10's product exists with a NULL price;
order 11 references product 2, which has no row. -/
def exMixed : DB :=
  { exDB0 with
      products := [{ id := 1, price := none }],
      orders := [{ id := 10, order_number := 1, partner_id := some 7,
                   status := OrderStatus.delivering },
                 { id := 11, order_number := 2, partner_id := some 7,
                   status := OrderStatus.pending }],
      order_items := [{ order_id := 10, product_id := 1, unit_price := 28, quantity := 3 },
                      { order_id := 11, product_id := 2, unit_price := 10, quantity := 2 }] }

/-- Scenario A's order with `partner_id = NULL` (a direct/admin sale). -/
def exNoPartner : DB :=
  { exDB0 with orders := [{ id := 10, order_number := 1, partner_id := none,
                            status := OrderStatus.delivering }] }

/-- Scenario A's order sold below cost: unit price 15 against cost 20, so
the computed profit is negative. -/
def exLoss : DB :=
  { exDB0 with order_items := [{ order_id := 10, product_id := 1,
                                 unit_price := 15, quantity := 3 }] }

/-- The spec's Scenario B/C starting state: partner 7 has
`available_balance = 100` of fully matured earnings. -/
def exFunded : DB :=
  let b : BalanceRow :=
    { partner_id := 7, available_balance := 100, pending_balance := 0,
      total_earned := 100, total_withdrawn := 0 }
  { exDB0 with partner_balances := [b] }

/-- `exFunded` after a withdrawal request of 60: available balance down to
40, one pending withdrawal row. -/
def exPending : DB :=
  let b : BalanceRow :=
    { partner_id := 7, available_balance := 40, pending_balance := 0,
      total_earned := 100, total_withdrawn := 0 }
  let w : WithdrawalRow :=
    { id := 0, partner_id := 7, amount := 60,
      status := WithdrawalStatus.pending, pix_key := "key", processed_at := none }
  { exFunded with partner_balances := [b], partner_withdrawals := [w], next_id := 1 }

/-- The withdrawal row of `exPending` after being resolved as paid at time 1. -/
def exPaidRow : WithdrawalRow :=
  { id := 0, partner_id := 7, amount := 60,
    status := WithdrawalStatus.paid, pix_key := "key", processed_at := some 1 }

/-- `exPending` with the withdrawal already resolved as paid. -/
def exPaid : DB :=
  { exPending with partner_withdrawals := [exPaidRow] }

/-! # Helper lemmas -/

/-- `orderProfit` reads only `order_items` and `products`, so an update of
the `orders` table does not change it. -/
lemma orderProfit_set_orders (db : DB) (x : List OrderRow) (oid : Nat) :
    orderProfit { db with orders := x } oid = orderProfit db oid := rfl

/-- `find?` through a keyed in-place update: updating every row whose key is
`k` by a key-preserving `f` maps the found row through `f`. -/
lemma find?_map_update {α : Type} (key : α → Nat) (k : Nat) (f : α → α)
    (hf : ∀ a, key (f a) = key a) (l : List α) :
    (l.map (fun a => if key a = k then f a else a)).find? (fun a => key a = k)
      = (l.find? (fun a => key a = k)).map f := by
  induction l with
  | nil => rfl
  | cons h t ih =>
      by_cases hk : key h = k
      · simp [List.find?_cons, hk, hf]
      · simp [List.find?_cons, hk, ih]

/-- With a non-negative configured minimum, the effective minimum withdrawal
amount (JS `settings?.min_withdrawal_amount || 50`) is positive. -/
lemma minAmount_pos (s : PaymentSettings)
    (h : 0 ≤ s.min_withdrawal_amount) : 0 < minAmount s := by
  unfold minAmount
  split
  · norm_num
  · rename_i hne
    exact lt_of_le_of_ne h (Ne.symm hne)

/-- The row found by a keyed `find?` has that key. -/
lemma find?_key {α : Type} (key : α → Nat) (k : Nat) (l : List α) (a : α)
    (h : l.find? (fun x => key x = k) = some a) : key a = k := by
  have := List.find?_some h
  simpa using this

/-- The profit loop stays NULL once the accumulator is NULL. -/
lemma profit_foldl_none (products : List ProductRow) (l : List OrderItemRow) :
    l.foldl (profitStep products) none = none := by
  induction l with
  | nil => rfl
  | cons h t ih => simpa [List.foldl, profitStep] using ih

/-- A line item whose cost lookup returns NULL poisons the whole profit
loop, whatever the accumulator was when it is reached. -/
lemma profit_foldl_poison (products : List ProductRow) (l : List OrderItemRow)
    (h : ∃ it ∈ l, lookupCost products it.product_id = none) (acc : Option Rat) :
    l.foldl (profitStep products) acc = none := by
  induction l generalizing acc with
  | nil => simp at h
  | cons hd t ih =>
      rcases h with ⟨it, hit, hnone⟩
      rcases List.mem_cons.mp hit with rfl | hmem
      · have : profitStep products acc it = none := by
          cases acc <;> simp [profitStep, hnone]
        simp [List.foldl, this, profit_foldl_none]
      · cases hacc : profitStep products acc hd with
        | none => simp [List.foldl, hacc, profit_foldl_none]
        | some a => simp [List.foldl, hacc, ih ⟨it, hmem, hnone⟩]

/-- When every cost lookup succeeds, the profit loop computes the spec's
sum, shifted by the starting accumulator. -/
lemma profit_foldl_sum (products : List ProductRow) (l : List OrderItemRow)
    (hall : ∀ it ∈ l, (lookupCost products it.product_id).isSome) (a : Rat) :
    l.foldl (profitStep products) (some a)
      = some (a + (l.map (fun it =>
          (it.unit_price - (lookupCost products it.product_id).getD 0) *
            (it.quantity : Rat))).sum) := by
  induction l generalizing a with
  | nil => simp
  | cons hd t ih =>
      obtain ⟨c, hc⟩ := Option.isSome_iff_exists.mp (hall hd (List.mem_cons_self hd t))
      have hrest : ∀ it ∈ t, (lookupCost products it.product_id).isSome :=
        fun it hit => hall it (List.mem_cons_of_mem hd hit)
      simp only [List.foldl, profitStep, hc, List.map, List.sum_cons]
      rw [ih hrest]
      simp only [Option.getD_some, Option.some.injEq]
      ring

/-- The trigger's profit loop computes the spec's profit formula whenever
every line item's product row exists. -/
lemma orderProfit_eq_spec (db : DB) (oid : Nat)
    (hall : ∀ it ∈ itemsOf db oid, (lookupCost db.products it.product_id).isSome) :
    orderProfit db oid = some (specOrderProfit db oid) := by
  unfold orderProfit specOrderProfit
  rw [profit_foldl_sum db.products (itemsOf db oid) hall 0]
  simp

/-- What `postSale` does to each table. -/
lemma postSale_spec (db : DB) (pid oid : Nat) (P : Rat) :
    (postSale db pid oid P).partner_balances
        = (match findBalance db pid with
           | none => db.partner_balances ++
               [{ partner_id := pid, available_balance := 0, pending_balance := P,
                  total_earned := P, total_withdrawn := 0 }]
           | some _ => creditPending db.partner_balances pid P) ∧
    (postSale db pid oid P).partner_transactions
        = db.partner_transactions ++
          [{ partner_id := pid, type := TxnType.sale, amount := P,
             balance_after := balanceSnapshot (postSale db pid oid P) pid,
             reference_id := oid }] ∧
    (postSale db pid oid P).partner_withdrawals = db.partner_withdrawals ∧
    (postSale db pid oid P).settings = db.settings := by
  refine ⟨?_, rfl, rfl, rfl⟩
  unfold postSale
  cases h : findBalance db pid <;> simp [h]

/-- A settlement-triggering status update factors as: update the order row,
then run `postSale` with the computed profit. -/
lemma settlement_eq_postSale (db : DB) (oid pid : Nat) (o : OrderRow) (P : Rat)
    (horder : db.orders.find? (fun r => r.id = oid) = some o)
    (hpartner : o.partner_id = some pid)
    (hold : o.status ≠ OrderStatus.delivered)
    (hP : orderProfit db oid = some P) (hpos : 0 < P) :
    step db (Op.deliver oid OrderStatus.delivered)
      = postSale { db with orders := db.orders.map (fun r =>
            if r.id = oid then { o with status := OrderStatus.delivered } else r) }
          pid oid P := by
  have hid : o.id = oid := find?_key OrderRow.id oid db.orders o horder
  simp only [step, updateOrderStatus, horder, credit_partner_sale_on_delivery]
  rw [if_pos ⟨trivial, hold⟩]
  simp only [hpartner, hid, orderProfit_set_orders, hP]
  rw [if_pos hpos]

/-- What `useUpdateWithdrawal` does to each table when the withdrawal row
exists, for any current status of that row. -/
lemma useUpdateWithdrawal_spec (db : DB) (wid : Nat) (w : WithdrawalRow)
    (s : WithdrawalStatus) (now : Nat)
    (hw : db.partner_withdrawals.find? (fun r => r.id = wid) = some w) :
    (useUpdateWithdrawal db wid s now).partner_withdrawals
        = db.partner_withdrawals.map (fun r =>
            if r.id = wid then { r with status := s, processed_at := some now }
            else r) ∧
    (useUpdateWithdrawal db wid s now).partner_balances = db.partner_balances ∧
    (useUpdateWithdrawal db wid s now).partner_transactions
        = (if s = WithdrawalStatus.paid then
             db.partner_transactions ++
               [{ partner_id := w.partner_id, type := TxnType.withdrawal,
                  amount := -w.amount, balance_after := 0, reference_id := w.id }]
           else db.partner_transactions) ∧
    (useUpdateWithdrawal db wid s now).settings = db.settings := by
  unfold useUpdateWithdrawal
  rw [hw]
  by_cases hs : s = WithdrawalStatus.paid <;> simp [hs]

/-! ## Preservation of the reservation-adjusted ledger invariant -/

/-- Appending a withdrawal row adds its amount to its partner's reserved
total and leaves every other partner's total unchanged. -/
lemma reservedL_append (ws : List WithdrawalRow) (w : WithdrawalRow) (pid : Nat) :
    reservedL (ws ++ [w]) pid
      = reservedL ws pid + (if w.partner_id = pid then w.amount else 0) := by
  unfold reservedL
  by_cases h : w.partner_id = pid <;>
    simp [List.filter_append, List.filter, h]

/-- A rewrite of the withdrawal rows that preserves `partner_id` and
`amount` (such as a status update) preserves every reserved total. -/
lemma reservedL_map_preserve (ws : List WithdrawalRow)
    (f : WithdrawalRow → WithdrawalRow)
    (hpid : ∀ w, (f w).partner_id = w.partner_id)
    (hamt : ∀ w, (f w).amount = w.amount) (pid : Nat) :
    reservedL (ws.map f) pid = reservedL ws pid := by
  unfold reservedL
  induction ws with
  | nil => rfl
  | cons hd t ih =>
      simp only [List.map_cons, List.filter_cons, hpid]
      by_cases h : hd.partner_id = pid
      · simp [h, hamt, ih]
      · simp [h, ih]

/-- A partner with no withdrawal rows has reserved total 0. -/
lemma reservedL_eq_zero (ws : List WithdrawalRow) (pid : Nat)
    (h : ∀ w ∈ ws, w.partner_id ≠ pid) : reservedL ws pid = 0 := by
  unfold reservedL
  have hnil : ws.filter (fun w => w.partner_id = pid) = [] := by
    rw [List.filter_eq_nil_iff]
    intro w hw
    simp [h w hw]
  rw [hnil]
  rfl

/-- `Inv` only reads the balance and withdrawal tables. -/
lemma Inv_of_eq (db db' : DB)
    (hb : db'.partner_balances = db.partner_balances)
    (hw : db'.partner_withdrawals = db.partner_withdrawals)
    (h : Inv db) : Inv db' := by
  obtain ⟨h1, h2⟩ := h
  constructor
  · intro b hbm
    rw [hb] at hbm
    rw [hw]
    exact h1 b hbm
  · intro w hwm
    rw [hw] at hwm
    rw [hb]
    exact h2 w hwm

/-- Posting a sale preserves the reservation-adjusted invariant: the profit
is added to both sides of the equation, and a freshly created balance row
belongs to a partner with no reserved withdrawals. -/
lemma Inv_postSale (db : DB) (pid oid : Nat) (p : Rat) (h : Inv db) :
    Inv (postSale db pid oid p) := by
  obtain ⟨h1, h2⟩ := h
  have hbal := (postSale_spec db pid oid p).1
  have hws : (postSale db pid oid p).partner_withdrawals
      = db.partner_withdrawals := rfl
  constructor
  · intro b hb
    rw [hws]
    rw [hbal] at hb
    cases hfb : findBalance db pid with
    | none =>
        rw [hfb] at hb
        rcases List.mem_append.mp hb with hbold | hbnew
        · exact h1 b hbold
        · have hb' : b = { partner_id := pid, available_balance := 0, pending_balance := p, total_earned := p, total_withdrawn := 0 } := by
            simpa using hbnew
          subst hb'
          have hzero : reservedL db.partner_withdrawals pid = 0 := by
            apply reservedL_eq_zero
            intro w hw hcon
            obtain ⟨b0, hb0, hpidw⟩ := h2 w hw
            have hnone := List.find?_eq_none.mp hfb b0 hb0
            rw [hpidw, hcon] at hnone
            simp at hnone
          show 0 + p + reservedL db.partner_withdrawals pid = p - 0
          rw [hzero]
          ring
    | some b0 =>
        rw [hfb] at hb
        unfold creditPending at hb
        obtain ⟨x, hx, hfx⟩ := List.mem_map.mp hb
        by_cases hxp : x.partner_id = pid
        · rw [if_pos hxp] at hfx
          subst hfx
          have hx1 := h1 x hx
          show x.available_balance + (x.pending_balance + p)
              + reservedL db.partner_withdrawals x.partner_id
            = x.total_earned + p - x.total_withdrawn
          linarith
        · rw [if_neg hxp] at hfx
          subst hfx
          exact h1 x hx
  · intro w hw
    rw [hws] at hw
    obtain ⟨b0, hb0, hpidw⟩ := h2 w hw
    rw [hbal]
    cases hfb : findBalance db pid with
    | none => exact ⟨b0, List.mem_append_left _ hb0, hpidw⟩
    | some b1 =>
        refine ⟨if b0.partner_id = pid then { b0 with pending_balance := b0.pending_balance + p, total_earned := b0.total_earned + p } else b0, ?_, ?_⟩
        · unfold creditPending
          exact List.mem_map.mpr ⟨b0, hb0, rfl⟩
        · by_cases hbp : b0.partner_id = pid
          · rw [if_pos hbp]
            show b0.partner_id = w.partner_id
            exact hpidw
          · rw [if_neg hbp]
            exact hpidw

/-- The settlement trigger preserves the reservation-adjusted invariant. -/
lemma Inv_credit (db : DB) (oldRow newRow : OrderRow) (h : Inv db) :
    Inv (credit_partner_sale_on_delivery db oldRow newRow) := by
  unfold credit_partner_sale_on_delivery
  split
  · split
    · exact h
    · split
      · split
        · exact Inv_postSale _ _ _ _ h
        · exact h
      · exact h
  · exact h

/-- An order-status update preserves the reservation-adjusted invariant. -/
lemma Inv_updateOrderStatus (db : DB) (oid : Nat) (s : OrderStatus) (h : Inv db) :
    Inv (updateOrderStatus db oid s) := by
  unfold updateOrderStatus
  cases hfo : db.orders.find? (fun o => o.id = oid) with
  | none => exact h
  | some o => exact Inv_credit _ _ _ h

/-- A withdrawal request preserves the reservation-adjusted invariant: on
success the amount leaves `available_balance` and enters the partner's
reserved total simultaneously.  Needs a non-negative configured minimum so
that a successful amount is positive, hence backed by a balance row. -/
lemma Inv_requestRun (db : DB) (pid : Nat) (amount : Rat) (pixKey : String)
    (hset : 0 ≤ db.settings.min_withdrawal_amount) (h : Inv db) :
    Inv (requestWithdrawalRun db pid amount pixKey) := by
  unfold requestWithdrawalRun
  cases hreq : requestWithdrawal db pid amount pixKey with
  | error e => exact h
  | ok db1 =>
      unfold requestWithdrawal at hreq
      split_ifs at hreq with hmin hbal hpix
      · injection hreq with hdb1
        subst hdb1
        show Inv (block_withdrawal_amount (insertWithdrawal db pid amount pixKey) pid amount)
        obtain ⟨h1, h2⟩ := h
        have hminle : minAmount db.settings ≤ amount := not_lt.mp hmin
        have hamle : amount ≤ availableBalanceOf db pid := not_lt.mp hbal
        have hpos : 0 < amount :=
          lt_of_lt_of_le (minAmount_pos db.settings hset) hminle
        have hres : ∀ pid',
            reservedL (block_withdrawal_amount (insertWithdrawal db pid amount pixKey) pid amount).partner_withdrawals pid'
              = reservedL db.partner_withdrawals pid'
                + (if pid = pid' then amount else 0) := by
          intro pid'
          show reservedL (db.partner_withdrawals ++ [{ id := db.next_id, partner_id := pid, amount := amount, status := WithdrawalStatus.pending, pix_key := pixKey, processed_at := none }]) pid' = _
          rw [reservedL_append]
        constructor
        · intro b hb
          obtain ⟨x, hx, hgx⟩ := List.mem_map.mp hb
          show b.available_balance + b.pending_balance + reservedL _ b.partner_id
            = b.total_earned - b.total_withdrawn
          by_cases hxp : x.partner_id = pid
          · rw [if_pos hxp] at hgx
            subst hgx
            have hx1 := h1 x hx
            show x.available_balance - amount + x.pending_balance
                + reservedL _ x.partner_id = x.total_earned - x.total_withdrawn
            rw [hres x.partner_id, if_pos hxp.symm]
            linarith
          · rw [if_neg hxp] at hgx
            subst hgx
            rw [hres x.partner_id, if_neg (fun hc => hxp hc.symm)]
            have hx1 := h1 x hx
            linarith
        · intro w hw
          rcases List.mem_append.mp hw with hwold | hwnew
          · obtain ⟨b0, hb0, hpidw⟩ := h2 w hwold
            refine ⟨if b0.partner_id = pid then { b0 with available_balance := b0.available_balance - amount } else b0, List.mem_map.mpr ⟨b0, hb0, rfl⟩, ?_⟩
            by_cases hbp : b0.partner_id = pid
            · rw [if_pos hbp]
              exact hpidw
            · rw [if_neg hbp]
              exact hpidw
          · have hw' : w = { id := db.next_id, partner_id := pid, amount := amount, status := WithdrawalStatus.pending, pix_key := pixKey, processed_at := none } := by
              simpa using hwnew
            subst hw'
            have hbalex : ∃ b0, findBalance db pid = some b0 := by
              cases hfb : findBalance db pid with
              | none =>
                  exfalso
                  have hz : availableBalanceOf db pid = 0 := by
                    simp [availableBalanceOf, hfb]
                  rw [hz] at hamle
                  linarith
              | some b0 => exact ⟨b0, rfl⟩
            obtain ⟨b0, hb0⟩ := hbalex
            have hb0mem : b0 ∈ db.partner_balances :=
              List.mem_of_find?_eq_some hb0
            have hb0pid : b0.partner_id = pid :=
              find?_key BalanceRow.partner_id pid db.partner_balances b0 hb0
            refine ⟨if b0.partner_id = pid then { b0 with available_balance := b0.available_balance - amount } else b0, List.mem_map.mpr ⟨b0, hb0mem, rfl⟩, ?_⟩
            rw [if_pos hb0pid]
            exact hb0pid

/-- A withdrawal resolution preserves the reservation-adjusted invariant:
it touches neither the balance rows nor any withdrawal's partner or amount. -/
lemma Inv_useUpdate (db : DB) (wid : Nat) (s : WithdrawalStatus) (now : Nat)
    (h : Inv db) : Inv (useUpdateWithdrawal db wid s now) := by
  cases hfw : db.partner_withdrawals.find? (fun w => w.id = wid) with
  | none =>
      have heq : useUpdateWithdrawal db wid s now = db := by
        unfold useUpdateWithdrawal
        rw [hfw]
      rw [heq]
      exact h
  | some w =>
      obtain ⟨h1, h2⟩ := h
      obtain ⟨hrows, hbalp, _⟩ := useUpdateWithdrawal_spec db wid w s now hfw
      have hpid : ∀ r : WithdrawalRow,
          ((if r.id = wid then { r with status := s, processed_at := some now } else r) : WithdrawalRow).partner_id = r.partner_id := by
        intro r
        split <;> rfl
      have hamt : ∀ r : WithdrawalRow,
          ((if r.id = wid then { r with status := s, processed_at := some now } else r) : WithdrawalRow).amount = r.amount := by
        intro r
        split <;> rfl
      constructor
      · intro b hb
        rw [hbalp] at hb
        rw [hrows]
        rw [reservedL_map_preserve db.partner_withdrawals _ hpid hamt]
        exact h1 b hb
      · intro w' hw'
        rw [hrows] at hw'
        obtain ⟨r, hr, hfr⟩ := List.mem_map.mp hw'
        obtain ⟨b0, hb0, hb0p⟩ := h2 r hr
        rw [hbalp]
        refine ⟨b0, hb0, ?_⟩
        rw [← hfr, hpid r]
        exact hb0p

/-- No core operation changes `payment_settings`. -/
lemma credit_settings (db : DB) (oldRow newRow : OrderRow) :
    (credit_partner_sale_on_delivery db oldRow newRow).settings = db.settings := by
  unfold credit_partner_sale_on_delivery
  split
  · split
    · rfl
    · split
      · split <;> rfl
      · rfl
  · rfl

/-- `step` never changes `payment_settings`. -/
lemma step_settings (db : DB) (op : Op) : (step db op).settings = db.settings := by
  cases op with
  | deliver oid s =>
      show (updateOrderStatus db oid s).settings = db.settings
      unfold updateOrderStatus
      cases hfo : db.orders.find? (fun o => o.id = oid) with
      | none => rfl
      | some o => exact credit_settings _ _ _
  | request pid amount pixKey =>
      show (requestWithdrawalRun db pid amount pixKey).settings = db.settings
      unfold requestWithdrawalRun
      cases hreq : requestWithdrawal db pid amount pixKey with
      | error e => rfl
      | ok db1 =>
          unfold requestWithdrawal at hreq
          split_ifs at hreq with hmin hbal hpix
          injection hreq with hdb1
          subst hdb1
          rfl
  | resolve wid s now =>
      show (useUpdateWithdrawal db wid s now).settings = db.settings
      cases hfw : db.partner_withdrawals.find? (fun w => w.id = wid) with
      | none =>
          have heq : useUpdateWithdrawal db wid s now = db := by
            unfold useUpdateWithdrawal
            rw [hfw]
          rw [heq]
      | some w => exact (useUpdateWithdrawal_spec db wid w s now hfw).2.2.2

/-- Every core operation preserves the reservation-adjusted invariant. -/
lemma Inv_step (db : DB) (op : Op)
    (hset : 0 ≤ db.settings.min_withdrawal_amount) (h : Inv db) :
    Inv (step db op) := by
  cases op with
  | deliver oid s => exact Inv_updateOrderStatus db oid s h
  | request pid amount pixKey => exact Inv_requestRun db pid amount pixKey hset h
  | resolve wid s now => exact Inv_useUpdate db wid s now h

/-! # Claim theorems -/

/-- C3: delivering an already-delivered order a second time posts nothing:
the trigger's idempotency guard (`OLD.status != 'delivered'`) makes the
duplicate status-update event change no balance field and append no
transaction. -/
theorem delivered_twice_posts_once (db : DB) (oid : Nat) (o : OrderRow)
    (horder : db.orders.find? (fun r => r.id = oid) = some o)
    (hdel : o.status = OrderStatus.delivered) :
    (step db (Op.deliver oid OrderStatus.delivered)).partner_balances
        = db.partner_balances ∧
    (step db (Op.deliver oid OrderStatus.delivered)).partner_transactions
        = db.partner_transactions := by
  simp [step, updateOrderStatus, horder, credit_partner_sale_on_delivery, hdel]

/-- Witness for C3: re-delivering the delivered Scenario A order. -/
theorem delivered_twice_posts_once_witness :
    (step exDelivered (Op.deliver 10 OrderStatus.delivered)).partner_balances
        = exDelivered.partner_balances ∧
    (step exDelivered (Op.deliver 10 OrderStatus.delivered)).partner_transactions
        = exDelivered.partner_transactions :=
  delivered_twice_posts_once exDelivered 10
    { id := 10, order_number := 1, partner_id := some 7,
      status := OrderStatus.delivered }
    (by decide) (by decide)

/-- C8: delivering an order posts no transaction and neither creates nor
modifies any balance row when the order's partner is NULL or the computed
profit is ≤ 0 (the trigger's `IF v_partner_id IS NULL` and
`IF v_partner_profit > 0` guards). -/
theorem loss_safety_no_post (db : DB) (oid : Nat) (o : OrderRow)
    (horder : db.orders.find? (fun r => r.id = oid) = some o)
    (h : o.partner_id = none ∨ ∃ P, orderProfit db oid = some P ∧ P ≤ 0) :
    (step db (Op.deliver oid OrderStatus.delivered)).partner_balances
        = db.partner_balances ∧
    (step db (Op.deliver oid OrderStatus.delivered)).partner_transactions
        = db.partner_transactions := by
  have hid : o.id = oid := find?_key OrderRow.id oid db.orders o horder
  by_cases hdel : o.status = OrderStatus.delivered
  · simp [step, updateOrderStatus, horder, credit_partner_sale_on_delivery, hdel]
  · rcases h with hnone | ⟨P, hP, hle⟩
    · simp [step, updateOrderStatus, horder, credit_partner_sale_on_delivery,
        hdel, hnone]
    · cases hop : o.partner_id with
      | none =>
          simp [step, updateOrderStatus, horder, credit_partner_sale_on_delivery,
            hdel, hop]
      | some pid =>
          simp [step, updateOrderStatus, horder, credit_partner_sale_on_delivery,
            hdel, hop, hid, orderProfit_set_orders, hP, not_lt.mpr hle]

/-- Witness for C8, at the NULL-partner order and at the below-cost order. -/
theorem loss_safety_no_post_witness :
    ((step exNoPartner (Op.deliver 10 OrderStatus.delivered)).partner_balances
        = exNoPartner.partner_balances ∧
     (step exNoPartner (Op.deliver 10 OrderStatus.delivered)).partner_transactions
        = exNoPartner.partner_transactions) ∧
    ((step exLoss (Op.deliver 10 OrderStatus.delivered)).partner_balances
        = exLoss.partner_balances ∧
     (step exLoss (Op.deliver 10 OrderStatus.delivered)).partner_transactions
        = exLoss.partner_transactions) :=
  ⟨loss_safety_no_post exNoPartner 10
      { id := 10, order_number := 1, partner_id := none,
        status := OrderStatus.delivering }
      (by decide) (Or.inl (by decide)),
   loss_safety_no_post exLoss 10
      { id := 10, order_number := 1, partner_id := some 7,
        status := OrderStatus.delivering }
      (by decide)
      (Or.inr ⟨-15,
        by norm_num [orderProfit, profitStep, itemsOf, lookupCost, exLoss, exDB0],
        by norm_num⟩)⟩

/-- C2: a transition into `delivered` for an order with a partner settles
`orderProfit = Σ (unitPriceSold - currentCostPrice) * quantity` over the
line items (current cost price, through `COALESCE(price, 0)`), and when the
profit is positive credits `pending_balance` and `total_earned` by it
(creating the balance row with `available_balance = 0`, `total_withdrawn = 0`
when absent) and appends exactly one `sale` transaction with that amount and
the order id as reference. -/
theorem settlement_posts_order_profit (db : DB) (oid pid : Nat) (o : OrderRow)
    (horder : db.orders.find? (fun r => r.id = oid) = some o)
    (hpartner : o.partner_id = some pid)
    (hold : o.status ≠ OrderStatus.delivered)
    (hall : ∀ it ∈ itemsOf db oid, (lookupCost db.products it.product_id).isSome)
    (hpos : 0 < specOrderProfit db oid) :
    orderProfit db oid = some (specOrderProfit db oid) ∧
    (step db (Op.deliver oid OrderStatus.delivered)).partner_transactions
      = db.partner_transactions ++
        [{ partner_id := pid, type := TxnType.sale, amount := specOrderProfit db oid,
           balance_after :=
             balanceSnapshot (step db (Op.deliver oid OrderStatus.delivered)) pid,
           reference_id := oid }] ∧
    (findBalance db pid = none →
       (step db (Op.deliver oid OrderStatus.delivered)).partner_balances
         = db.partner_balances ++
           [{ partner_id := pid, available_balance := 0,
              pending_balance := specOrderProfit db oid,
              total_earned := specOrderProfit db oid, total_withdrawn := 0 }]) ∧
    (∀ b, findBalance db pid = some b →
       findBalance (step db (Op.deliver oid OrderStatus.delivered)) pid
         = some { b with
             pending_balance := b.pending_balance + specOrderProfit db oid,
             total_earned := b.total_earned + specOrderProfit db oid }) := by
  have hP := orderProfit_eq_spec db oid hall
  have heq := settlement_eq_postSale db oid pid o (specOrderProfit db oid)
    horder hpartner hold hP hpos
  set db1 : DB := { db with orders := db.orders.map (fun r =>
    if r.id = oid then { o with status := OrderStatus.delivered } else r) } with hdb1
  have hbal1 : db1.partner_balances = db.partner_balances := rfl
  have hfind1 : findBalance db1 pid = findBalance db pid := rfl
  obtain ⟨hb, ht, _, _⟩ := postSale_spec db1 pid oid (specOrderProfit db oid)
  refine ⟨hP, ?_, ?_, ?_⟩
  · rw [heq, ht]
  · intro hnone
    rw [heq, hb, hfind1, hnone]
  · intro b hsome
    rw [heq]
    show (postSale db1 pid oid (specOrderProfit db oid)).partner_balances.find?
      (fun x => x.partner_id = pid) = _
    rw [hb, hfind1, hsome]
    show (creditPending db.partner_balances pid (specOrderProfit db oid)).find?
      (fun x => x.partner_id = pid) = _
    have hcp := find?_map_update BalanceRow.partner_id pid
      (fun x => { x with pending_balance := x.pending_balance + specOrderProfit db oid, total_earned := x.total_earned + specOrderProfit db oid })
      (fun x => rfl) db.partner_balances
    unfold creditPending
    rw [hcp]
    show (findBalance db pid).map _ = _
    rw [hsome]
    rfl

/-- Witness for C2: the spec's Scenario A — cost 20.00, selling price 28.00,
quantity 3 — posts a profit of exactly 24.00. -/
theorem settlement_posts_order_profit_witness :
    specOrderProfit exDB0 10 = 24 ∧
    (orderProfit exDB0 10 = some (specOrderProfit exDB0 10) ∧
     (step exDB0 (Op.deliver 10 OrderStatus.delivered)).partner_transactions
       = exDB0.partner_transactions ++
         [{ partner_id := 7, type := TxnType.sale, amount := specOrderProfit exDB0 10,
            balance_after :=
              balanceSnapshot (step exDB0 (Op.deliver 10 OrderStatus.delivered)) 7,
            reference_id := 10 }] ∧
     (findBalance exDB0 7 = none →
        (step exDB0 (Op.deliver 10 OrderStatus.delivered)).partner_balances
          = exDB0.partner_balances ++
            [{ partner_id := 7, available_balance := 0,
               pending_balance := specOrderProfit exDB0 10,
               total_earned := specOrderProfit exDB0 10, total_withdrawn := 0 }]) ∧
     (∀ b, findBalance exDB0 7 = some b →
        findBalance (step exDB0 (Op.deliver 10 OrderStatus.delivered)) 7
          = some { b with
              pending_balance := b.pending_balance + specOrderProfit exDB0 10,
              total_earned := b.total_earned + specOrderProfit exDB0 10 })) :=
  ⟨by norm_num [specOrderProfit, itemsOf, lookupCost, exDB0],
   settlement_posts_order_profit exDB0 10 7
     { id := 10, order_number := 1, partner_id := some 7,
       status := OrderStatus.delivering }
     (by decide) rfl (by decide) (by decide)
     (by norm_num [specOrderProfit, itemsOf, lookupCost, exDB0])⟩

/-- C7: the price floor of `SetPriceModal.handleSave`: a selling price at or
below the product's cost price is rejected with `InvalidPrice` and persists
nothing, while cost price + 0.01 always succeeds. -/
theorem price_floor (db : DB) (pid : Nat) (product : ProductRow) (price : Rat)
    (hle : price ≤ product.price.getD 0) :
    (setSellingPrice db pid product price = Except.error PriceError.InvalidPrice ∧
     setSellingPriceRun db pid product price = db) ∧
    ∃ db1, setSellingPrice db pid product (product.price.getD 0 + 1 / 100)
        = Except.ok db1 := by
  refine ⟨⟨?_, ?_⟩, ?_⟩
  · simp [setSellingPrice, hle]
  · simp [setSellingPriceRun, setSellingPrice, hle]
  · have hgt : ¬ (product.price.getD 0 + 1 / 100 ≤ product.price.getD 0) := by
      intro hcon
      linarith
    refine ⟨{ db with partner_products := upsertPartnerProduct db.partner_products ⟨pid, product.id, product.price.getD 0 + 1 / 100, true⟩ }, ?_⟩
    simp only [setSellingPrice]
    rw [if_neg hgt]

/-- C10 counterexample: order 10 of `exMissing` has one line item
(28.00 × 3) whose product id has no row in `products`.  The claim predicts a
cost of 0 and a posted profit of 84.00; the trigger's `SELECT ... INTO`
instead leaves the cost NULL, the accumulated profit is NULL, and nothing is
posted: no balance row is created and no transaction is appended. -/
theorem missing_product_posts_nothing :
    orderProfit exMissing 10 = none ∧
    (step exMissing (Op.deliver 10 OrderStatus.delivered)).partner_balances = [] ∧
    (step exMissing (Op.deliver 10 OrderStatus.delivered)).partner_transactions
        = [] := by
  refine ⟨rfl, ?_, ?_⟩ <;>
    norm_num [step, updateOrderStatus, exMissing, exDB0,
      credit_partner_sale_on_delivery, orderProfit, profitStep, itemsOf,
      lookupCost, (show OrderStatus.delivering ≠ OrderStatus.delivered by decide)]

/-- C10 (amended): a line item whose product row exists with a NULL `price`
is costed `COALESCE(price, 0) = 0`, contributing its full
`unitPriceSold * quantity`; but a line item whose product id has NO row in
`products` leaves the cost NULL, which poisons the whole accumulated profit
to NULL, so the settlement posts nothing at all for that order. -/
theorem null_cost_vs_missing_product (db : DB) (oid1 pid1 oid2 : Nat) (u : Rat)
    (q : Nat) (o2 : OrderRow)
    (hfind : db.products.find? (fun r => r.id = pid1)
        = some { id := pid1, price := none })
    (hitems : itemsOf db oid1
        = [{ order_id := oid1, product_id := pid1, unit_price := u, quantity := q }])
    (horder2 : db.orders.find? (fun r => r.id = oid2) = some o2)
    (hmiss : ∃ it ∈ itemsOf db oid2, lookupCost db.products it.product_id = none) :
    orderProfit db oid1 = some (u * (q : Rat)) ∧
    orderProfit db oid2 = none ∧
    (step db (Op.deliver oid2 OrderStatus.delivered)).partner_balances
        = db.partner_balances ∧
    (step db (Op.deliver oid2 OrderStatus.delivered)).partner_transactions
        = db.partner_transactions := by
  have hlook : lookupCost db.products pid1 = some 0 := by
    simp [lookupCost, hfind]
  have h1 : orderProfit db oid1 = some (u * (q : Rat)) := by
    unfold orderProfit
    rw [hitems]
    simp [List.foldl, profitStep, hlook]
  have h2 : orderProfit db oid2 = none :=
    profit_foldl_poison db.products (itemsOf db oid2) hmiss (some 0)
  have hid2 : o2.id = oid2 := find?_key OrderRow.id oid2 db.orders o2 horder2
  refine ⟨h1, h2, ?_⟩
  by_cases hdel : o2.status = OrderStatus.delivered
  · constructor <;>
      simp [step, updateOrderStatus, horder2, credit_partner_sale_on_delivery, hdel]
  · cases hop : o2.partner_id with
    | none =>
        constructor <;>
          simp [step, updateOrderStatus, horder2, credit_partner_sale_on_delivery,
            hdel, hop]
    | some pid =>
        constructor <;>
          simp [step, updateOrderStatus, horder2, credit_partner_sale_on_delivery,
            hdel, hop, hid2, orderProfit_set_orders, h2]

/-- Witness for the amended C10, on `exMixed`: order 10's product has a NULL
price and yields profit 28 × 3 = 84; order 11 references the missing product
2, and delivering it posts nothing. -/
theorem null_cost_vs_missing_product_witness :
    orderProfit exMixed 10 = some ((28 : Rat) * ((3 : Nat) : Rat)) ∧
    orderProfit exMixed 11 = none ∧
    (step exMixed (Op.deliver 11 OrderStatus.delivered)).partner_balances
        = exMixed.partner_balances ∧
    (step exMixed (Op.deliver 11 OrderStatus.delivered)).partner_transactions
        = exMixed.partner_transactions :=
  null_cost_vs_missing_product exMixed 10 1 11 28 3
    { id := 11, order_number := 2, partner_id := some 7,
      status := OrderStatus.pending }
    (by decide)
    (by norm_num [itemsOf, exMixed, exDB0])
    (by decide)
    ⟨{ order_id := 11, product_id := 2, unit_price := 10, quantity := 2 },
      by norm_num [itemsOf, exMixed, exDB0], by decide⟩

/-- C4: resolving a pending withdrawal.  The code PATCHes the withdrawal row
(status and `processed_at`) and, for `paid`, appends the `withdrawal`
transaction of `-amount` — but the balance row never changes: the PATCH that
was meant to move the amount into `total_withdrawn` sends SQL expression
strings PostgREST rejects, and the `rejected` path performs no balance write
at all.  Evaluated at the failing input (pending withdrawal of 60.00,
balance row `(available 40, pending 0, earned 100, withdrawn 0)`): `paid`
leaves `total_withdrawn = 0` and `available_balance = 40` instead of
`total_withdrawn = 60`, and `rejected` leaves `available_balance = 40`
instead of restoring 100. -/
theorem resolve_withdrawal_never_touches_balance :
    (useUpdateWithdrawal exPending 0 WithdrawalStatus.paid 5).partner_balances
        = exPending.partner_balances ∧
    (useUpdateWithdrawal exPending 0 WithdrawalStatus.paid 5).partner_transactions
        = exPending.partner_transactions ++
          [{ partner_id := 7, type := TxnType.withdrawal, amount := -60,
             balance_after := 0, reference_id := 0 }] ∧
    (useUpdateWithdrawal exPending 0 WithdrawalStatus.paid 5).partner_withdrawals
        = [{ id := 0, partner_id := 7, amount := 60, status := WithdrawalStatus.paid,
             pix_key := "key", processed_at := some 5 }] ∧
    (useUpdateWithdrawal exPending 0 WithdrawalStatus.rejected 5).partner_balances
        = exPending.partner_balances ∧
    (useUpdateWithdrawal exPending 0 WithdrawalStatus.rejected 5).partner_withdrawals
        = [{ id := 0, partner_id := 7, amount := 60,
             status := WithdrawalStatus.rejected, pix_key := "key",
             processed_at := some 5 }] := by
  refine ⟨rfl, ?_, ?_, rfl, ?_⟩ <;>
    norm_num [useUpdateWithdrawal, exPending, exFunded, exDB0,
      (show WithdrawalStatus.rejected ≠ WithdrawalStatus.paid by decide)]

/-- C6 counterexample: the withdrawal of `exPaid` is already `paid`, yet
resolving it again as `paid` does not fail and is not a no-op: the row's
`processed_at` is overwritten (1 → 9) and a second `withdrawal` transaction
of -60.00 is appended. -/
theorem resolve_nonpending_succeeds :
    (useUpdateWithdrawal exPaid 0 WithdrawalStatus.paid 9).partner_withdrawals
        = [{ id := 0, partner_id := 7, amount := 60, status := WithdrawalStatus.paid,
             pix_key := "key", processed_at := some 9 }] ∧
    (useUpdateWithdrawal exPaid 0 WithdrawalStatus.paid 9).partner_withdrawals
        ≠ exPaid.partner_withdrawals ∧
    (useUpdateWithdrawal exPaid 0 WithdrawalStatus.paid 9).partner_transactions
        = exPaid.partner_transactions ++
          [{ partner_id := 7, type := TxnType.withdrawal, amount := -60,
             balance_after := 0, reference_id := 0 }] := by
  refine ⟨?_, ?_, ?_⟩ <;>
    norm_num [useUpdateWithdrawal, exPaid, exPaidRow, exPending, exFunded, exDB0]

/-- C6 (amended): the only pending-status guard is in the admin UI — the
modal offers the resolve actions only while `withdrawal.status === 'pending'`
— but `useUpdateWithdrawal` itself checks nothing: a resolution call on a
non-pending withdrawal succeeds, overwriting `status` and `processed_at`
(and, for `paid`, appending a further `withdrawal` transaction); no
`InvalidTransition` failure exists, so nothing at the data layer stops two
concurrent resolutions from both taking effect. -/
theorem withdrawal_guard_is_ui_only (db : DB) (wid : Nat) (w : WithdrawalRow)
    (s : WithdrawalStatus) (now : Nat)
    (hw : db.partner_withdrawals.find? (fun r => r.id = wid) = some w)
    (hnp : w.status ≠ WithdrawalStatus.pending) :
    modalOffersResolution w = false ∧
    (useUpdateWithdrawal db wid s now).partner_withdrawals.find?
        (fun r => r.id = wid)
      = some { w with status := s, processed_at := some now } ∧
    (useUpdateWithdrawal db wid s now).partner_balances = db.partner_balances ∧
    (s = WithdrawalStatus.paid →
       (useUpdateWithdrawal db wid s now).partner_transactions
         = db.partner_transactions ++
           [{ partner_id := w.partner_id, type := TxnType.withdrawal,
              amount := -w.amount, balance_after := 0, reference_id := w.id }]) := by
  obtain ⟨hrows, hbal, htxn, _⟩ := useUpdateWithdrawal_spec db wid w s now hw
  have hfw := find?_map_update WithdrawalRow.id wid
    (fun r => { r with status := s, processed_at := some now }) (fun r => rfl)
    db.partner_withdrawals
  refine ⟨by simp [modalOffersResolution, hnp], ?_, hbal, ?_⟩
  · rw [hrows, hfw, hw]
    rfl
  · intro hs
    rw [htxn, if_pos hs]

/-- Witness for the amended C6: re-resolving the already-paid withdrawal of
`exPaid`. -/
theorem withdrawal_guard_is_ui_only_witness :
    modalOffersResolution exPaidRow = false ∧
    (useUpdateWithdrawal exPaid 0 WithdrawalStatus.paid 9).partner_withdrawals.find?
        (fun r => r.id = 0)
      = some { exPaidRow with status := WithdrawalStatus.paid, processed_at := some 9 } ∧
    (useUpdateWithdrawal exPaid 0 WithdrawalStatus.paid 9).partner_balances
        = exPaid.partner_balances ∧
    (WithdrawalStatus.paid = WithdrawalStatus.paid →
       (useUpdateWithdrawal exPaid 0 WithdrawalStatus.paid 9).partner_transactions
         = exPaid.partner_transactions ++
           [{ partner_id := exPaidRow.partner_id, type := TxnType.withdrawal,
              amount := -exPaidRow.amount, balance_after := 0,
              reference_id := exPaidRow.id }]) :=
  withdrawal_guard_is_ui_only exPaid 0 exPaidRow WithdrawalStatus.paid 9
    (by norm_num [exPaid, exPaidRow, exPending, exFunded, exDB0])
    (by decide)

/-- C9 counterexample: finalizing the pending withdrawal of `exPending` as
`paid` appends a `withdrawal` transaction whose `balance_after` is the
literal 0 even though the partner's balance snapshot
(`available + pending`) after the mutation is 40.00. -/
theorem withdrawal_txn_zero_snapshot :
    (useUpdateWithdrawal exPending 0 WithdrawalStatus.paid 5).partner_transactions.getLast?
      = some { partner_id := 7, type := TxnType.withdrawal, amount := -60,
               balance_after := 0, reference_id := 0 } ∧
    balanceSnapshot (useUpdateWithdrawal exPending 0 WithdrawalStatus.paid 5) 7
        = 40 ∧
    (0 : Rat) ≠ 40 := by
  refine ⟨?_, ?_, by norm_num⟩ <;>
    norm_num [useUpdateWithdrawal, balanceSnapshot, findBalance, exPending,
      exFunded, exDB0]

/-- C9 (amended): `sale` transactions do record `balance_after` as the
partner's `available_balance + pending_balance` immediately after the
settlement mutation; but `withdrawal` transactions record `balance_after = 0`
regardless of the partner's balance (the source posts a literal 0 commented
"Será recalculado", and nothing recalculates it). -/
theorem txn_snapshot_semantics (db : DB) (oid pid wid : Nat) (o : OrderRow)
    (w : WithdrawalRow) (P : Rat) (now : Nat)
    (horder : db.orders.find? (fun r => r.id = oid) = some o)
    (hpartner : o.partner_id = some pid)
    (hold : o.status ≠ OrderStatus.delivered)
    (hP : orderProfit db oid = some P) (hpos : 0 < P)
    (hw : db.partner_withdrawals.find? (fun r => r.id = wid) = some w) :
    (step db (Op.deliver oid OrderStatus.delivered)).partner_transactions
      = db.partner_transactions ++
        [{ partner_id := pid, type := TxnType.sale, amount := P,
           balance_after :=
             balanceSnapshot (step db (Op.deliver oid OrderStatus.delivered)) pid,
           reference_id := oid }] ∧
    (useUpdateWithdrawal db wid WithdrawalStatus.paid now).partner_transactions
      = db.partner_transactions ++
        [{ partner_id := w.partner_id, type := TxnType.withdrawal,
           amount := -w.amount, balance_after := 0, reference_id := w.id }] := by
  constructor
  · rw [settlement_eq_postSale db oid pid o P horder hpartner hold hP hpos]
    exact (postSale_spec _ pid oid P).2.1
  · obtain ⟨_, _, htxn, _⟩ :=
      useUpdateWithdrawal_spec db wid w WithdrawalStatus.paid now hw
    rw [htxn, if_pos rfl]

/-- Witness for the amended C9, on `exPending`: delivering order 10 appends a
`sale` transaction carrying the real snapshot, and paying withdrawal 0
appends a `withdrawal` transaction carrying 0. -/
theorem txn_snapshot_semantics_witness :
    (step exPending (Op.deliver 10 OrderStatus.delivered)).partner_transactions
      = exPending.partner_transactions ++
        [{ partner_id := 7, type := TxnType.sale, amount := 24,
           balance_after :=
             balanceSnapshot (step exPending (Op.deliver 10 OrderStatus.delivered)) 7,
           reference_id := 10 }] ∧
    (useUpdateWithdrawal exPending 0 WithdrawalStatus.paid 3).partner_transactions
      = exPending.partner_transactions ++
        [{ partner_id := 7, type := TxnType.withdrawal, amount := -(60 : Rat),
           balance_after := 0, reference_id := 0 }] :=
  txn_snapshot_semantics exPending 10 7 0
    { id := 10, order_number := 1, partner_id := some 7,
      status := OrderStatus.delivering }
    { id := 0, partner_id := 7, amount := 60, status := WithdrawalStatus.pending,
      pix_key := "key", processed_at := none }
    24 3
    (by decide) rfl (by decide)
    (by norm_num [orderProfit, profitStep, itemsOf, lookupCost, exPending,
      exFunded, exDB0])
    (by norm_num)
    (by norm_num [exPending, exFunded, exDB0])

/-- C5: a withdrawal request below the configured minimum fails (the
`BelowMinimum` guard), one exceeding the available balance fails (the
`InsufficientFunds` guard), any failure leaves every record unchanged, and an
admissible request creates a `pending` withdrawal row and moves the amount
out of `available_balance`. -/
theorem requestWithdrawal_validation (db : DB) (pid : Nat) (amount : Rat)
    (pixKey : String) (hset : 0 ≤ db.settings.min_withdrawal_amount) :
    (amount < minAmount db.settings →
       requestWithdrawal db pid amount pixKey
         = Except.error RequestError.BelowMinimum) ∧
    (availableBalanceOf db pid < amount →
       ∃ e, requestWithdrawal db pid amount pixKey = Except.error e) ∧
    (minAmount db.settings ≤ amount → availableBalanceOf db pid < amount →
       requestWithdrawal db pid amount pixKey
         = Except.error RequestError.InsufficientFunds) ∧
    (∀ e, requestWithdrawal db pid amount pixKey = Except.error e →
       requestWithdrawalRun db pid amount pixKey = db) ∧
    (minAmount db.settings ≤ amount → amount ≤ availableBalanceOf db pid →
       pixKeyNonBlank pixKey = true →
       ∃ db1, requestWithdrawal db pid amount pixKey = Except.ok db1 ∧
         db1.partner_withdrawals = db.partner_withdrawals ++
           [{ id := db.next_id, partner_id := pid, amount := amount,
              status := WithdrawalStatus.pending, pix_key := pixKey,
              processed_at := none }] ∧
         availableBalanceOf db1 pid = availableBalanceOf db pid - amount ∧
         db1.partner_transactions = db.partner_transactions) := by
  refine ⟨?_, ?_, ?_, ?_, ?_⟩
  · intro h
    simp [requestWithdrawal, h]
  · intro h
    by_cases hmin : amount < minAmount db.settings
    · exact ⟨RequestError.BelowMinimum, by simp [requestWithdrawal, hmin]⟩
    · exact ⟨RequestError.InsufficientFunds, by simp [requestWithdrawal, hmin, h]⟩
  · intro hmin h
    simp [requestWithdrawal, not_lt.mpr hmin, h]
  · intro e he
    simp [requestWithdrawalRun, he]
  · intro hmin hle hpix
    refine ⟨block_withdrawal_amount (insertWithdrawal db pid amount pixKey) pid amount,
      ?_, rfl, ?_, rfl⟩
    · simp [requestWithdrawal, not_lt.mpr hmin, not_lt.mpr hle, hpix]
    · have hpos : 0 < amount := lt_of_lt_of_le (minAmount_pos db.settings hset) hmin
      have hbal : findBalance db pid ≠ none := by
        intro hn
        have : availableBalanceOf db pid = 0 := by
          simp [availableBalanceOf, hn]
        rw [this] at hle
        exact absurd (lt_of_lt_of_le hpos hle) (lt_irrefl 0)
      obtain ⟨b, hb⟩ := Option.ne_none_iff_exists.mp hbal
      have hfb := find?_map_update BalanceRow.partner_id pid
        (fun x => { x with available_balance := x.available_balance - amount })
        (fun x => rfl) db.partner_balances
      show availableBalanceOf (block_withdrawal_amount (insertWithdrawal db pid amount pixKey) pid amount) pid = _
      unfold availableBalanceOf findBalance block_withdrawal_amount insertWithdrawal
      simp only []
      rw [hfb]
      have hb' : db.partner_balances.find? (fun x => x.partner_id = pid) = some b :=
        hb.symm
      rw [hb']
      simp [availableBalanceOf, findBalance, hb']

/-- Witness for C5: Scenario B (150.00 against 100.00 fails), a 30.00
request below the 50.00 minimum fails, and Scenario C (60.00 from 100.00)
succeeds leaving 40.00 available. -/
theorem requestWithdrawal_validation_witness :
    ((30 : Rat) < minAmount exFunded.settings →
       requestWithdrawal exFunded 7 30 "key"
         = Except.error RequestError.BelowMinimum) ∧
    (availableBalanceOf exFunded 7 < (30 : Rat) →
       ∃ e, requestWithdrawal exFunded 7 30 "key" = Except.error e) ∧
    (minAmount exFunded.settings ≤ (30 : Rat) →
       availableBalanceOf exFunded 7 < (30 : Rat) →
       requestWithdrawal exFunded 7 30 "key"
         = Except.error RequestError.InsufficientFunds) ∧
    (∀ e, requestWithdrawal exFunded 7 30 "key" = Except.error e →
       requestWithdrawalRun exFunded 7 30 "key" = exFunded) ∧
    (minAmount exFunded.settings ≤ (30 : Rat) →
       (30 : Rat) ≤ availableBalanceOf exFunded 7 →
       pixKeyNonBlank "key" = true →
       ∃ db1, requestWithdrawal exFunded 7 30 "key" = Except.ok db1 ∧
         db1.partner_withdrawals = exFunded.partner_withdrawals ++
           [{ id := exFunded.next_id, partner_id := 7, amount := 30,
              status := WithdrawalStatus.pending, pix_key := "key",
              processed_at := none }] ∧
         availableBalanceOf db1 7 = availableBalanceOf exFunded 7 - 30 ∧
         db1.partner_transactions = exFunded.partner_transactions) :=
  requestWithdrawal_validation exFunded 7 30 "key" (by norm_num [exFunded, exDB0])

/-- Witness for C7: cost price 20, rejected at 20, accepted at 20.01. -/
theorem price_floor_witness :
    ((setSellingPrice exDB0 7 { id := 1, price := some 20 } 20
        = Except.error PriceError.InvalidPrice ∧
      setSellingPriceRun exDB0 7 { id := 1, price := some 20 } 20 = exDB0) ∧
     ∃ db1, setSellingPrice exDB0 7 { id := 1, price := some 20 }
        ((({ id := 1, price := some 20 } : ProductRow).price.getD 0) + 1 / 100)
        = Except.ok db1) :=
  price_floor exDB0 7 { id := 1, price := some 20 } 20 (by decide)

/-- C1 counterexample: the claimed equation `available_balance +
pending_balance == total_earned - total_withdrawn` (within 0.01) is not an
invariant of the core operations.  `exFunded` satisfies it (100 + 0 = 100 -
0), but the Scenario C withdrawal request — a core operation — moves 60.00
out of `available_balance` while `total_earned`/`total_withdrawn` stay put:
the row reads (40, 0, 100, 0), off by the 60.00 reserved by the pending
withdrawal, and no code path ever repairs the equation. -/
theorem claimed_invariant_not_preserved :
    claimedInvariant exFunded ∧
    (step exFunded (Op.request 7 60 "key")).partner_balances
      = [{ partner_id := 7, available_balance := 40, pending_balance := 0,
           total_earned := 100, total_withdrawn := 0 }] ∧
    ¬ claimedInvariant (step exFunded (Op.request 7 60 "key")) := by
  refine ⟨?_, ?_, ?_⟩
  · norm_num [claimedInvariant, claimedEquation, exFunded, exDB0]
  · norm_num [step, requestWithdrawalRun, requestWithdrawal, minAmount,
      availableBalanceOf, findBalance, block_withdrawal_amount,
      insertWithdrawal, exFunded, exDB0,
      (show pixKeyNonBlank "key" = true by decide)]
  · norm_num [claimedInvariant, claimedEquation, step, requestWithdrawalRun,
      requestWithdrawal, minAmount, availableBalanceOf, findBalance,
      block_withdrawal_amount, insertWithdrawal, exFunded, exDB0,
      (show pixKeyNonBlank "key" = true by decide)]

/-- C1 (amended): after every sequence of core operations (order settlement,
withdrawal request, admin resolution) from a state satisfying it, every
balance row satisfies `available_balance + pending_balance + (sum of the
partner's withdrawal-row amounts) = total_earned - total_withdrawn` exactly —
the claimed equation holds only up to the partner's reserved withdrawal
total, which the code never clears (paid resolutions never reach the balance
row, rejected ones restore nothing).  Requires a non-negative configured
minimum withdrawal amount. -/
theorem ledger_invariant_with_reservations (db : DB) (ops : List Op)
    (hset : 0 ≤ db.settings.min_withdrawal_amount) (h : Inv db) :
    Inv (run db ops) := by
  induction ops generalizing db with
  | nil => exact h
  | cons op t ih =>
      have hset' : 0 ≤ (step db op).settings.min_withdrawal_amount := by
        rw [step_settings]
        exact hset
      exact ih (step db op) hset' (Inv_step db op hset h)

/-- Witness for the amended C1: Scenario A's delivery followed by Scenario
C's request and its (balance-less) paid resolution keep the
reservation-adjusted equation. -/
theorem ledger_invariant_with_reservations_witness :
    0 ≤ exFunded.settings.min_withdrawal_amount ∧
    Inv exFunded ∧
    Inv (run exFunded [Op.deliver 10 OrderStatus.delivered,
      Op.request 7 60 "key", Op.resolve 0 WithdrawalStatus.paid 5]) :=
  ⟨by norm_num [exFunded, exDB0],
   by norm_num [Inv, reservedL, exFunded, exDB0],
   ledger_invariant_with_reservations exFunded
     [Op.deliver 10 OrderStatus.delivered, Op.request 7 60 "key",
      Op.resolve 0 WithdrawalStatus.paid 5]
     (by norm_num [exFunded, exDB0])
     (by norm_num [Inv, reservedL, exFunded, exDB0])⟩

end DeliveryDK
